import Mathlib

/-!
Shallow embedding of the `zpr-common` visa/policy data core.

Machine integers are modelled as `Nat` (unsigned) or `Int` (signed), with
explicit `% 2^w` at the points where the Rust source performs an `as`
conversion that can truncate or reinterpret.  `SystemTime` is modelled as a
signed number of nanoseconds relative to the UNIX epoch, and `Duration`
arithmetic is carried out on those nanosecond counts.  Fallible Rust code
(`Result<T, VsapiTypeError>`) becomes `Except VsapiTypeError T`.
-/

namespace ZprCommon

/-- Reinterpret a signed integer as a 64-bit unsigned value (Rust `as u64`). -/
def toU64 (i : Int) : Nat := (i % (2 ^ 64 : Int)).toNat

/-- Reinterpret a signed integer as a 16-bit unsigned value (Rust `as u16`). -/
def toU16 (i : Int) : Nat := (i % (2 ^ 16 : Int)).toNat

/-- Truncate an unsigned value to 8 bits (Rust `as u8`). -/
def toU8 (n : Nat) : Nat := n % 2 ^ 8

/-- `packet_info::L3Type` (open enum over `u8`; only the two named variants
are ever produced by the code under study). -/
inductive L3Type where
  | Ipv4
  | Ipv6
deriving DecidableEq, Repr

/-- `std::net::IpAddr`: a V4 address carries 4 octets, a V6 address 16.
Octet lists model the `octets()` views used by the codec. -/
inductive IpAddr where
  | v4 (octets : List Nat)
  | v6 (octets : List Nat)
deriving DecidableEq, Repr

/-- `IpAddr::is_ipv4` — true exactly on the V4 variant. -/
def IpAddr.is_ipv4 : IpAddr → Bool
  | .v4 _ => true
  | .v6 _ => false

/-- `L3Type::new_from_addr`. -/
def L3Type.new_from_addr : IpAddr → L3Type
  | .v4 _ => .Ipv4
  | .v6 _ => .Ipv6

-- Constants from `vsapi_types::packet::vsapi_ip_number`.
namespace vsapi_ip_number

def ICMP : Nat := 1
def TCP : Nat := 6
def UDP : Nat := 17
def IPV6_ICMP : Nat := 58

end vsapi_ip_number

/-- `vsapi_types::visa::EndpointT`. -/
inductive EndpointT where
  | Any
  | Server
  | Client
deriving DecidableEq, Repr

/-- `vsapi_types::visa::TcpUdpPep` (`source_port`, `dest_port` are `u16`). -/
structure TcpUdpPep where
  source_port : Nat
  dest_port : Nat
  endpoint : EndpointT
deriving DecidableEq, Repr

/-- `vsapi_types::visa::IcmpPep` (`icmp_type`, `icmp_code` are `u8`). -/
structure IcmpPep where
  icmp_type : Nat
  icmp_code : Nat
deriving DecidableEq, Repr

/-- `vsapi_types::visa::DockPep`. -/
inductive DockPep where
  | TCP (pep : TcpUdpPep)
  | UDP (pep : TcpUdpPep)
  | ICMP (pep : IcmpPep)
deriving DecidableEq, Repr

/-- `vsapi_types::visa::KeyFormat` (single variant, also the `Default`). -/
inductive KeyFormat where
  | ZprKF01
deriving DecidableEq, Repr

/-- `vsapi_types::visa::KeySet`. -/
structure KeySet where
  format : KeyFormat
  ingress_key : List Nat
  egress_key : List Nat
deriving DecidableEq, Repr

/-- `KeySet::default()` (derived `Default`: default format, empty key vecs). -/
def KeySet.default : KeySet := ⟨.ZprKF01, [], []⟩

/-- `vsapi_types::visa::Constraints`. -/
structure Constraints where
  bw : Bool
  bw_limit_bps : Int
  data_cap_id : String
  data_cap_bytes : Int
  data_cap_affinity_addr : List Nat
deriving DecidableEq, Repr

/-- `vsapi_types::visa::Visa`.  `expires` is a `SystemTime`, modelled as
signed nanoseconds relative to the UNIX epoch. -/
structure Visa where
  issuer_id : Nat
  config : Int
  expires : Int
  source_addr : IpAddr
  dest_addr : IpAddr
  dock_pep : DockPep
  session_key : KeySet
  cons : Option Constraints
deriving DecidableEq, Repr

/-- `vsapi_types::packet::VsapiFiveTuple` as constructed by
`Visa::get_five_tuple`. -/
structure VsapiFiveTuple where
  source_addr : IpAddr
  dest_addr : IpAddr
  l3_type : L3Type
  l4_protocol : Nat
  source_port : Nat
  dest_port : Nat
deriving DecidableEq, Repr

/-- `Visa::get_five_tuple` (vsapi_types/visa.rs). -/
def Visa.get_five_tuple (v : Visa) : VsapiFiveTuple :=
  let source_addr := v.source_addr
  let dest_addr := v.dest_addr
  let l3_protocol := if source_addr.is_ipv4 then L3Type.Ipv4 else L3Type.Ipv6
  let ppd : Nat × Nat × Nat :=
    match v.dock_pep with
    | .ICMP icmp_pep =>
        if l3_protocol = L3Type.Ipv6 then
          (vsapi_ip_number.IPV6_ICMP, icmp_pep.icmp_type, icmp_pep.icmp_code)
        else
          (vsapi_ip_number.ICMP, icmp_pep.icmp_type, icmp_pep.icmp_code)
    | .UDP tcp_udp_pep =>
        (vsapi_ip_number.UDP, tcp_udp_pep.source_port, tcp_udp_pep.dest_port)
    | .TCP tcp_udp_pep =>
        (vsapi_ip_number.TCP, tcp_udp_pep.source_port, tcp_udp_pep.dest_port)
  { source_addr := source_addr
    dest_addr := dest_addr
    l3_type := l3_protocol
    l4_protocol := ppd.1
    source_port := ppd.2.1
    dest_port := ppd.2.2 }

/-- `util::time::visa_expiration_timestamp_to_system_time`: milliseconds
since the UNIX epoch to a `SystemTime` (nanoseconds since the epoch). -/
def visa_expiration_timestamp_to_system_time (timestamp : Nat) : Int :=
  (timestamp : Int) * 1000000

/-- `Visa::get_expiration_timestamp`: `duration_since(UNIX_EPOCH)` succeeds
exactly when `expires` is at or after the epoch; `as_millis` divides the
nanosecond count by 10^6 and the `as u64` cast reduces modulo `2^64`.
A pre-epoch `expires` yields `0`. -/
def Visa.get_expiration_timestamp (v : Visa) : Nat :=
  if 0 ≤ v.expires then (v.expires.toNat / 1000000) % 2 ^ 64 else 0

/-! ## Current (Cap'n Proto, `vsapi::v1`) wire format

The wire messages are modelled structurally: a `WireVisa` is the value held
by a `v1::visa` message after a successful Cap'n Proto read, and the writer
functions produce the message a `v1::visa::Builder` would hold after
`write_to`.  Cap'n Proto primitive fields are total (missing fields read as
defaults), so the wire structs have no `Option` fields; union variants are
closed sums. -/

/-- `v1::ip_addr`: a union of raw 4-byte and 16-byte data fields. -/
inductive WireIpAddr where
  | v4 (data : List Nat)
  | v6 (data : List Nat)
deriving DecidableEq, Repr

/-- `v1::EndpointT`. -/
inductive V1EndpointT where
  | Any
  | Server
  | Client
deriving DecidableEq, Repr

/-- `v1::dock_pep`: union of tcp/udp (each a `dock_pep_tcp_udp`) and icmp
(a `dock_pep_icmp` holding the packed 16-bit `icmpTypeCode`). -/
inductive WireDockPep where
  | tcp (source_port dest_port : Nat) (endpoint : V1EndpointT)
  | udp (source_port dest_port : Nat) (endpoint : V1EndpointT)
  | icmp (icmp_type_code : Nat)
deriving DecidableEq, Repr

/-- `v1::KeyFormat`. -/
inductive V1KeyFormat where
  | ZprKF01
deriving DecidableEq, Repr

/-- `v1::key_set`. -/
structure WireKeySet where
  format : V1KeyFormat
  ingress_key : List Nat
  egress_key : List Nat
deriving DecidableEq, Repr

/-- `v1::visa`. -/
structure WireVisa where
  issuer_id : Nat
  expiration : Nat
  source_addr : WireIpAddr
  dest_addr : WireIpAddr
  dock_pep : WireDockPep
  session_key : WireKeySet
deriving DecidableEq, Repr

/-- `impl WriteTo<v1::ip_addr::Builder> for IpAddr` (vsapi_types/writer.rs):
octets are copied into the matching union variant. -/
def IpAddr.write_to : IpAddr → WireIpAddr
  | .v4 o => .v4 o
  | .v6 o => .v6 o

/-- Endpoint mapping used by `TcpUdpPep::write_to`. -/
def EndpointT.to_v1 : EndpointT → V1EndpointT
  | .Any => .Any
  | .Server => .Server
  | .Client => .Client

/-- `impl WriteTo<v1::dock_pep_icmp::Builder> for IcmpPep`:
`((icmp_type as u16) << 8) | (icmp_code as u16)`.  For the byte-sized
fields this shift-or is exactly `icmp_type * 256 + icmp_code`; the `% 2^8`
record the `u8` typing of the two fields. -/
def IcmpPep.write_type_code (p : IcmpPep) : Nat :=
  toU8 p.icmp_type * 256 + toU8 p.icmp_code

/-- `impl WriteTo<v1::visa::Builder> for Visa` (vsapi_types/writer.rs),
together with the pep/key-set writers it invokes. -/
def Visa.write_to (v : Visa) : WireVisa :=
  { issuer_id := v.issuer_id
    expiration := v.get_expiration_timestamp
    source_addr := v.source_addr.write_to
    dest_addr := v.dest_addr.write_to
    dock_pep :=
      match v.dock_pep with
      | .TCP pep => .tcp pep.source_port pep.dest_port pep.endpoint.to_v1
      | .UDP pep => .udp pep.source_port pep.dest_port pep.endpoint.to_v1
      | .ICMP pep => .icmp pep.write_type_code
    session_key := ⟨.ZprKF01, v.session_key.ingress_key, v.session_key.egress_key⟩ }

/-- `vsapi_types::error::ErrorCode`. -/
inductive ErrorCode where
  | Internal
  | AuthRequired
  | InvalidOperation
  | OutOfSync
  | NotFound
  | InvalidSignature
  | QuotaExceeded
  | TemporarilyUnavailable
  | AuthError
  | ParamError
  | UnknownStatusCode
  | Fail
deriving DecidableEq, Repr

/-- `vsapi_types::error::VsapiTypeError` (variants relevant to the decode
paths under study). -/
inductive VsapiTypeError where
  | SerializationError (msg : String)
  | DeserializationError (msg : String)
  | CodedError (code : ErrorCode)
  | TryFromSliceError
deriving DecidableEq, Repr

/-- `IpAddr::from(<[u8; N]>::try_from(data)?)` on a `v1::ip_addr` union:
the slice conversion succeeds exactly when the raw data has the length the
variant demands, otherwise a `TryFromSliceError` propagates. -/
def IpAddr.try_from_wire : WireIpAddr → Except VsapiTypeError IpAddr
  | .v4 data => if data.length = 4 then .ok (.v4 data) else .error .TryFromSliceError
  | .v6 data => if data.length = 16 then .ok (.v6 data) else .error .TryFromSliceError

/-- Endpoint mapping used by `DockPep::try_from` (both tcp and udp arms). -/
def V1EndpointT.to_canonical : V1EndpointT → EndpointT
  | .Any => .Any
  | .Server => .Server
  | .Client => .Client

/-- `impl TryFrom<v1::dock_pep::Reader> for DockPep` (vsapi_types/visa.rs):
the icmp arm builds `IcmpPep::new(type_code as u8, 0)`. -/
def DockPep.try_from_wire : WireDockPep → Except VsapiTypeError DockPep
  | .tcp sp dp e => .ok (.TCP ⟨sp, dp, e.to_canonical⟩)
  | .udp sp dp e => .ok (.UDP ⟨sp, dp, e.to_canonical⟩)
  | .icmp type_code => .ok (.ICMP ⟨toU8 type_code, 0⟩)

/-- `impl TryFrom<v1::key_set::Reader> for KeySet`. -/
def KeySet.try_from_wire (w : WireKeySet) : Except VsapiTypeError KeySet :=
  match w.format with
  | .ZprKF01 => .ok ⟨.ZprKF01, w.ingress_key, w.egress_key⟩

/-- `impl TryFrom<v1::visa::Reader> for Visa` (vsapi_types/visa.rs):
`config` is fixed to 0 and constraints are not yet decoded. -/
def Visa.try_from_wire (r : WireVisa) : Except VsapiTypeError Visa :=
  match IpAddr.try_from_wire r.source_addr with
  | .error e => .error e
  | .ok source_addr =>
    match IpAddr.try_from_wire r.dest_addr with
    | .error e => .error e
    | .ok dest_addr =>
      match DockPep.try_from_wire r.dock_pep with
      | .error e => .error e
      | .ok dock_pep =>
        match KeySet.try_from_wire r.session_key with
        | .error e => .error e
        | .ok session_key =>
          .ok { issuer_id := r.issuer_id
                config := 0
                expires := visa_expiration_timestamp_to_system_time r.expiration
                source_addr := source_addr
                dest_addr := dest_addr
                dock_pep := dock_pep
                session_key := session_key
                cons := none }

/-! ## Legacy (thrift, `vsapi`) wire format

The generated thrift structs have independently optional fields; they are
modelled with `Option` everywhere the Rust struct has one.  Signed thrift
integers are `Int`; the decoders apply the same `as` casts as the source. -/

/-- `vsapi::PEPIndex` (an open thrift enum: the decoder's `_` arm is
reachable, modelled by `Unknown`). -/
inductive ThriftPEPIndex where
  | UDP
  | TCP
  | ICMP
  | Unknown
deriving DecidableEq, Repr

/-- `vsapi::PEPArgsTCPUDP` (ports are thrift `i16`). -/
structure ThriftPEPArgsTCPUDP where
  source_port : Option Int
  dest_port : Option Int
  server : Option Bool
deriving DecidableEq, Repr

/-- `vsapi::PEPArgsICMP` (`icmp_type_code` is a thrift `i16`). -/
structure ThriftPEPArgsICMP where
  icmp_type_code : Option Int
deriving DecidableEq, Repr

/-- `vsapi::KeyFormat` (only its presence matters to the decoder). -/
inductive ThriftKeyFormat where
  | ZPR_KF_01
deriving DecidableEq, Repr

/-- `vsapi::KeySet`. -/
structure ThriftKeySet where
  format : Option ThriftKeyFormat
  ingress_key : Option (List Nat)
  egress_key : Option (List Nat)
deriving DecidableEq, Repr

/-- `vsapi::Constraints`. -/
structure ThriftConstraints where
  bw : Option Bool
  bw_limit_bps : Option Int
  data_cap_id : Option String
  data_cap_bytes : Option Int
  data_cap_affinity_addr : Option (List Nat)
deriving DecidableEq, Repr

/-- `vsapi::Visa` (thrift `issuer_id: i32`, `configuration/expires: i64`,
contacts are byte vectors). -/
structure ThriftVisa where
  issuer_id : Option Int
  configuration : Option Int
  expires : Option Int
  source_contact : Option (List Nat)
  dest_contact : Option (List Nat)
  dock_pep : Option ThriftPEPIndex
  tcpudp_pep_args : Option ThriftPEPArgsTCPUDP
  icmp_pep_args : Option ThriftPEPArgsICMP
  session_key : Option ThriftKeySet
  cons : Option ThriftConstraints
deriving DecidableEq, Repr

/-- `util::ip::ip_addr_from_vec`. -/
def ip_addr_from_vec (v : List Nat) : Except VsapiTypeError IpAddr :=
  if v.length = 4 then .ok (.v4 v)
  else if v.length = 16 then .ok (.v6 v)
  else .error (.DeserializationError "Bad IP Address format")

/-- `impl From<vsapi::PEPArgsTCPUDP> for TcpUdpPep`: missing ports default
to 0, `server` selects the endpoint hint. -/
def TcpUdpPep.from_thrift (t : ThriftPEPArgsTCPUDP) : TcpUdpPep :=
  { source_port := match t.source_port with | some val => toU16 val | none => 0
    dest_port := match t.dest_port with | some val => toU16 val | none => 0
    endpoint := match t.server with
      | some true => .Server
      | some false => .Client
      | none => .Any }

/-- `impl From<vsapi::PEPArgsICMP> for IcmpPep`: the type/code word is cast
`as u16` then `as u8` for the type, and `icmp_code` is always 0. -/
def IcmpPep.from_thrift (t : ThriftPEPArgsICMP) : IcmpPep :=
  let icmp_type_code := match t.icmp_type_code with | some val => toU16 val | none => 0
  { icmp_type := toU8 icmp_type_code, icmp_code := 0 }

/-- `impl TryFrom<vsapi::KeySet> for KeySet`: the format must be present;
missing key vectors default to empty. -/
def KeySet.try_from_thrift (t : ThriftKeySet) : Except VsapiTypeError KeySet :=
  match t.format with
  | some _ =>
      .ok { format := .ZprKF01
            ingress_key := t.ingress_key.getD []
            egress_key := t.egress_key.getD [] }
  | none => .error (.DeserializationError "No format")

/-- `impl From<vsapi::Constraints> for Constraints`: all fields default. -/
def Constraints.from_thrift (t : ThriftConstraints) : Constraints :=
  { bw := t.bw.getD false
    bw_limit_bps := t.bw_limit_bps.getD 0
    data_cap_id := t.data_cap_id.getD ""
    data_cap_bytes := t.data_cap_bytes.getD 0
    data_cap_affinity_addr := t.data_cap_affinity_addr.getD [] }

/-- `impl TryFrom<vsapi::Visa> for Visa` (vsapi_types/visa.rs): each
required field that is absent aborts with the named deserialization
error, in the source's check order. -/
def Visa.try_from_thrift (t : ThriftVisa) : Except VsapiTypeError Visa :=
  match t.issuer_id with
  | none => .error (.DeserializationError "No issuer id")
  | some issuer_val =>
    let config := t.configuration.getD 0
    match t.expires with
    | none => .error (.DeserializationError "No expiration")
    | some expires_val =>
      match t.source_contact with
      | none => .error (.DeserializationError "No source addr")
      | some source_vec =>
        match ip_addr_from_vec source_vec with
        | .error e => .error e
        | .ok source_addr =>
          match t.dest_contact with
          | none => .error (.DeserializationError "No dest addr")
          | some dest_vec =>
            match ip_addr_from_vec dest_vec with
            | .error e => .error e
            | .ok dest_addr =>
              match t.dock_pep with
              | none => .error (.DeserializationError "No Dock Pep")
              | some idx =>
                let dock_pep_result : Except VsapiTypeError DockPep :=
                  match idx with
                  | .UDP =>
                      match t.tcpudp_pep_args with
                      | some val => .ok (.UDP (TcpUdpPep.from_thrift val))
                      | none => .error (.DeserializationError "No TCP/UDP PEP Args")
                  | .TCP =>
                      match t.tcpudp_pep_args with
                      | some val => .ok (.TCP (TcpUdpPep.from_thrift val))
                      | none => .error (.DeserializationError "No TCP/UDP PEP Args")
                  | .ICMP =>
                      match t.icmp_pep_args with
                      | some val => .ok (.ICMP (IcmpPep.from_thrift val))
                      | none => .error (.DeserializationError "No ICMP PEP Args")
                  | .Unknown => .error (.DeserializationError "Unknown Dock Pep")
                match dock_pep_result with
                | .error e => .error e
                | .ok dock_pep =>
                  let session_key_result : Except VsapiTypeError KeySet :=
                    match t.session_key with
                    | some val => KeySet.try_from_thrift val
                    | none => .ok KeySet.default
                  match session_key_result with
                  | .error e => .error e
                  | .ok session_key =>
                    .ok { issuer_id := toU64 issuer_val
                          config := config
                          expires := visa_expiration_timestamp_to_system_time (toU64 expires_val)
                          source_addr := source_addr
                          dest_addr := dest_addr
                          dock_pep := dock_pep
                          session_key := session_key
                          cons := t.cons.map Constraints.from_thrift }

/-! ## Visa response classification (vsapi_types/response.rs) -/

/-- `v1::VisaDenyCode` (closed capnp enum). -/
inductive V1VisaDenyCode where
  | NoReason
  | NoMatch
  | Denied
  | SourceNotFound
  | DestNotFound
  | SourceAuthError
  | DestAuthError
  | QuotaExceeded
deriving DecidableEq, Repr

/-- `vsapi_types::response::DenyCode`. -/
inductive DenyCode where
  | Fail
  | NoReason
  | NoMatch
  | Denied
  | SourceNotFound
  | DestNotFound
  | SourceAuthError
  | DestAuthError
  | QuotaExceeded
deriving DecidableEq, Repr

/-- `vsapi_types::response::Denied`. -/
structure Denied where
  code : DenyCode
  reason : Option String
deriving DecidableEq, Repr

/-- `vsapi_types::error::ApiResponseError`. -/
structure ApiResponseError where
  code : ErrorCode
  message : String
  retry_in : Nat
deriving DecidableEq, Repr

/-- `vsapi_types::response::VisaResponse`. -/
inductive VisaResponse where
  | Allow (visa : Visa)
  | Deny (denied : Denied)
  | VSApiError (err : ApiResponseError)
deriving DecidableEq, Repr

/-- `v1::ErrorCode` (closed capnp enum). -/
inductive V1ErrorCode where
  | Internal
  | AuthRequired
  | InvalidOperation
  | OutOfSync
  | NotFound
  | InvalidSignature
  | QuotaExceeded
  | TemporarilyUnavailable
  | AuthError
  | ParamError
deriving DecidableEq, Repr

/-- `v1::error` as read by the response classifier (only `code` is
consulted; `message`/`retry_in` kept for fidelity). -/
structure WireError where
  code : V1ErrorCode
  message : String
  retry_in : Nat
deriving DecidableEq, Repr

/-- `v1::visa_response`: union of allow/deny/error. -/
inductive WireVisaResponse where
  | allow (v : WireVisa)
  | deny (c : V1VisaDenyCode)
  | error (e : WireError)
deriving DecidableEq, Repr

/-- `impl From<v1::VisaDenyCode> for DenyCode` (the closed deny-code
table). -/
def DenyCode.from_v1 : V1VisaDenyCode → DenyCode
  | .NoReason => .NoReason
  | .NoMatch => .NoMatch
  | .Denied => .Denied
  | .SourceNotFound => .SourceNotFound
  | .DestNotFound => .DestNotFound
  | .SourceAuthError => .SourceAuthError
  | .DestAuthError => .DestAuthError
  | .QuotaExceeded => .QuotaExceeded

/-- `impl From<v1::ErrorCode> for ErrorCode` (the closed error-code
table). -/
def ErrorCode.from_v1 : V1ErrorCode → ErrorCode
  | .Internal => .Internal
  | .AuthRequired => .AuthRequired
  | .InvalidOperation => .InvalidOperation
  | .OutOfSync => .OutOfSync
  | .NotFound => .NotFound
  | .InvalidSignature => .InvalidSignature
  | .QuotaExceeded => .QuotaExceeded
  | .TemporarilyUnavailable => .TemporarilyUnavailable
  | .AuthError => .AuthError
  | .ParamError => .ParamError

/-- `impl TryFrom<v1::visa_response::Reader> for VisaResponse`
(vsapi_types/response.rs): allow decodes the visa, deny becomes an `Ok`
`Deny` value, and error becomes an `Err(CodedError)`. -/
def VisaResponse.try_from_wire : WireVisaResponse → Except VsapiTypeError VisaResponse
  | .allow v =>
      match Visa.try_from_wire v with
      | .error e => .error e
      | .ok visa => .ok (.Allow visa)
  | .deny c => .ok (.Deny ⟨DenyCode.from_v1 c, none⟩)
  | .error e => .error (.CodedError (ErrorCode.from_v1 e.code))

/-! ## Authenticated services list (vsapi_types/services.rs) -/

/-- `vsapi_types::services::ServiceDescriptor`. -/
structure ServiceDescriptor where
  service_id : String
  service_uri : String
  zpr_addr : IpAddr
deriving DecidableEq, Repr

/-- `vsapi_types::services::AuthServicesList`.  `expiration` is a
`SystemTime` (nanoseconds relative to the UNIX epoch). -/
structure AuthServicesList where
  expiration : Option Int
  services : List ServiceDescriptor
deriving DecidableEq, Repr

/-- `impl Default for AuthServicesList`: sentinel expiration at the UNIX
epoch and no services. -/
def AuthServicesList.default : AuthServicesList :=
  { expiration := some 0, services := [] }

/-- `AuthServicesList::is_expired`: `SystemTime::now() >= exp` when an
expiration is set; `now` is the current time passed explicitly. -/
def AuthServicesList.is_expired (l : AuthServicesList) (now : Int) : Bool :=
  match l.expiration with
  | some exp => decide (exp ≤ now)
  | none => false

/-- `AuthServicesList::is_empty`. -/
def AuthServicesList.is_empty (l : AuthServicesList) : Bool :=
  l.services.isEmpty

/-- `AuthServicesList::is_valid`: non-empty and not expired. -/
def AuthServicesList.is_valid (l : AuthServicesList) (now : Int) : Bool :=
  !l.is_empty && !l.is_expired now

/-! ## String ordering

Rust orders `String`s lexicographically; the same order on the character
list is computed here as an executable comparison (`String.lt`/`le` in Lean
do not reduce in the kernel). -/

/-- Strict lexicographic order on character lists (Rust `str` `Ord`). -/
def charListLt : List Char → List Char → Bool
  | [], [] => false
  | [], _ :: _ => true
  | _ :: _, [] => false
  | a :: as, b :: bs => if a < b then true else if b < a then false else charListLt as bs

/-- Non-strict lexicographic order on character lists. -/
def charListLe : List Char → List Char → Bool
  | [], _ => true
  | _ :: _, [] => false
  | a :: as, b :: bs => if a < b then true else if b < a then false else charListLe as bs

/-- Rust `String` strict comparison. -/
def strLt (a b : String) : Bool := charListLt a.data b.data

/-- Rust `String` non-strict comparison. -/
def strLe (a b : String) : Bool := charListLe a.data b.data

/-- One step of a stable insertion sort with respect to `strLe`. -/
def insSorted (s : String) : List String → List String
  | [] => [s]
  | x :: xs => if strLe s x then s :: x :: xs else x :: insSorted s xs

/-- Rust `Vec::sort` on strings: stable ascending sort. -/
def sortStrings (l : List String) : List String := l.foldr insSorted []

/-! ## Attribute model (policy_types/attribute.rs) -/

def ATTR_DOMAIN_SERVICE : String := "service"
def ATTR_DOMAIN_USER : String := "user"
def ATTR_DOMAIN_ENDPOINT : String := "endpoint"
def ATTR_DOMAIN_ZPR_INTERNAL : String := "zpr"

/-- `policy_types::attribute::AttrDomain`. -/
inductive AttrDomain where
  | Unspecified
  | Endpoint
  | User
  | Service
  | ZprInternal
deriving DecidableEq, Repr

/-- `impl fmt::Display for AttrDomain`. -/
def AttrDomain.str : AttrDomain → String
  | .Endpoint => ATTR_DOMAIN_ENDPOINT
  | .User => ATTR_DOMAIN_USER
  | .Service => ATTR_DOMAIN_SERVICE
  | .ZprInternal => ATTR_DOMAIN_ZPR_INTERNAL
  | .Unspecified => "UNSPECIFIED"

/-- `policy_types::attribute::AttrT`. -/
inductive AttrT where
  | Tag
  | SingleValued
  | MultiValued
deriving DecidableEq, Repr

/-- `policy_types::attribute::DomainFallback`. -/
inductive DomainFallback where
  | UseHint (hint : AttrDomain)
  | UseUnspecified
  | ErrorIfMissing
deriving DecidableEq, Repr

/-- `policy_types::error::AttributeError` (variants used here). -/
inductive AttributeError where
  | InvalidDomain (name : String)
  | InvalidOperation (msg : String)
deriving DecidableEq, Repr

/-- `policy_types::attribute::Attribute`. -/
structure Attribute where
  domain : AttrDomain
  name : String
  values : Option (List String)
  attr_type : AttrT
  optional : Bool
deriving DecidableEq, Repr

/-- `Attribute::is_tag`. -/
def Attribute.is_tag (a : Attribute) : Bool := a.attr_type = AttrT.Tag

/-- `Attribute::is_single_valued`. -/
def Attribute.is_single_valued (a : Attribute) : Bool := a.attr_type = AttrT.SingleValued

/-- `Attribute::is_multi_valued`. -/
def Attribute.is_multi_valued (a : Attribute) : Bool := a.attr_type = AttrT.MultiValued

/-- `Attribute::zpl_key`: `"<domain>.zpr.tag"` for tags, else
`"<domain>.<name>"`. -/
def Attribute.zpl_key (a : Attribute) : String :=
  if a.is_tag then a.domain.str ++ ".zpr.tag" else a.domain.str ++ "." ++ a.name

/-- `Attribute::zpl_values`: a tag yields its domain-qualified name as a
singleton; otherwise the stored values sorted ascending (or `[]`). -/
def Attribute.zpl_values (a : Attribute) : List String :=
  if a.is_tag then [a.domain.str ++ "." ++ a.name]
  else
    match a.values with
    | some v => sortStrings v
    | none => []

/-- `Attribute::parse_domain`: strip one of the `endpoint.`/`user.`/
`service.` prefixes off the key (char-list model of `str::strip_prefix`). -/
def Attribute.parse_domain (key : String) : Except AttributeError (AttrDomain × String) :=
  let ep := ATTR_DOMAIN_ENDPOINT ++ "."
  let us := ATTR_DOMAIN_USER ++ "."
  let sv := ATTR_DOMAIN_SERVICE ++ "."
  if ep.data.isPrefixOf key.data then
    .ok (.Endpoint, String.mk (key.data.drop ep.data.length))
  else if us.data.isPrefixOf key.data then
    .ok (.User, String.mk (key.data.drop us.data.length))
  else if sv.data.isPrefixOf key.data then
    .ok (.Service, String.mk (key.data.drop sv.data.length))
  else
    .error (.InvalidDomain key)

/-- `policy_types::attribute::resolve_domain`. -/
def resolve_domain (name : String) (fb : DomainFallback) :
    Except AttributeError (AttrDomain × String) :=
  match Attribute.parse_domain name with
  | .ok pair => .ok pair
  | .error _ =>
      match fb with
      | .UseHint hint => .ok (hint, name)
      | .UseUnspecified => .ok (.Unspecified, name)
      | .ErrorIfMissing => .error (.InvalidDomain name)

/-- `policy_types::attribute::TupleAttrBuilder`. -/
structure TupleAttrBuilder where
  raw_name : String
  attr_type : AttrT
  values : Option (List String)
  optional : Bool
  domain_fb : DomainFallback
deriving DecidableEq, Repr

/-- `TupleAttrBuilder::new` (via `Attribute::tuple`): single-valued, no
values, required, `ErrorIfMissing` fallback. -/
def Attribute.tuple (name : String) : TupleAttrBuilder :=
  { raw_name := name
    attr_type := .SingleValued
    values := none
    optional := false
    domain_fb := .ErrorIfMissing }

/-- `TupleAttrBuilder::single`. -/
def TupleAttrBuilder.single (b : TupleAttrBuilder) : TupleAttrBuilder :=
  { b with attr_type := .SingleValued }

/-- `TupleAttrBuilder::multi`. -/
def TupleAttrBuilder.multi (b : TupleAttrBuilder) : TupleAttrBuilder :=
  { b with attr_type := .MultiValued }

/-- `TupleAttrBuilder::value`. -/
def TupleAttrBuilder.value (b : TupleAttrBuilder) (v : String) : TupleAttrBuilder :=
  { b with values := some [v] }

/-- `TupleAttrBuilder::values`. -/
def TupleAttrBuilder.with_values (b : TupleAttrBuilder) (vals : List String) : TupleAttrBuilder :=
  { b with values := some vals }

/-- `TupleAttrBuilder::domain_hint`. -/
def TupleAttrBuilder.domain_hint (b : TupleAttrBuilder) (hint : AttrDomain) : TupleAttrBuilder :=
  { b with domain_fb := .UseHint hint }

/-- `TupleAttrBuilder::build`: resolve the domain, then infer the kind —
an explicit `MultiValued` stays, a single-valued builder holding more than
one value becomes `MultiValued`, everything else is `SingleValued`. -/
def TupleAttrBuilder.build (b : TupleAttrBuilder) : Except AttributeError Attribute :=
  match resolve_domain b.raw_name b.domain_fb with
  | .error e => .error e
  | .ok (domain, name) =>
      let attr_type :=
        match b.values, b.attr_type with
        | _, .MultiValued => AttrT.MultiValued
        | some v, .SingleValued => if 1 < v.length then AttrT.MultiValued else AttrT.SingleValued
        | _, _ => AttrT.SingleValued
      .ok { domain := domain
            name := name
            values := b.values
            attr_type := attr_type
            optional := b.optional }

/-! ## Policy attribute serialization (policy_types/writer.rs) -/

/-- `policy::v1::AttrOp` (operators used by `write_attributes`). -/
inductive AttrOp where
  | Has
  | Eq
deriving DecidableEq, Repr

/-- One `policy::v1::AttrExpr` entry as filled in by `write_attributes`. -/
structure AttrExpr where
  key : String
  op : AttrOp
  value : List String
deriving DecidableEq, Repr

/-- `policy_types::writer::write_attributes`: one expression per attribute;
`Has` when the zpl value list is empty, its first value is empty, or the
attribute is multi-valued, else `Eq`. -/
def write_attributes (attrs : List Attribute) : List AttrExpr :=
  attrs.map fun attr =>
    let vals := attr.zpl_values
    { key := attr.zpl_key
      op :=
        if vals.isEmpty || (vals.headD "").isEmpty || attr.is_multi_valued then
          AttrOp.Has
        else
          AttrOp.Eq
      value := vals }

/-! ## Connect request and the wire claims mapping (vsapi_types/request.rs) -/

/-- `vsapi_types::request::Claim`. -/
structure Claim where
  key : String
  value : String
deriving DecidableEq, Repr

/-- `vsapi_types::request::ConnectRequestV1`. -/
structure ConnectRequestV1 where
  challenge_responses : List (List Nat)
  claims : List Claim
  dock_addr : IpAddr
  connection_id : Int
deriving DecidableEq, Repr

/-- Insertion into a `BTreeMap<String, String>` viewed as its sorted,
key-unique association list: keep keys in strictly ascending order and
overwrite the value when the key is already present. -/
def btreeInsert (k v : String) : List (String × String) → List (String × String)
  | [] => [(k, v)]
  | (k', v') :: t =>
      if strLt k k' then (k, v) :: (k', v') :: t
      else if k = k' then (k, v) :: t
      else (k', v') :: btreeInsert k v t

/-- The `for claim in req.claims { claims.insert(claim.key, claim.value) }`
loop of `TryFrom<ConnectRequestV1> for vsapi::ConnectRequest`. -/
def btreeInsertAll (claims : List Claim) : List (String × String) :=
  claims.foldl (fun m c => btreeInsert c.key c.value m) []

/-- `vsapi::ConnectRequest` (thrift): the claims field carries the
`BTreeMap` as its sorted association list. -/
structure ThriftConnectRequest where
  connection_id : Option Int
  dock_addr : Option (List Nat)
  claims : Option (List (String × String))
  challenge : Option (List Nat)
  challenge_responses : Option (List (List Nat))
deriving DecidableEq, Repr

/-- `IpAddr::octets` as used when flattening `dock_addr` to a byte vec. -/
def IpAddr.octets_vec : IpAddr → List Nat
  | .v4 o => o
  | .v6 o => o

/-- `impl TryFrom<ConnectRequestV1> for vsapi::ConnectRequest`
(vsapi_types/request.rs): folds the claim list into the wire map and never
fails. -/
def ConnectRequestV1.try_into_thrift (req : ConnectRequestV1) :
    Except VsapiTypeError ThriftConnectRequest :=
  let claims := btreeInsertAll req.claims
  .ok { connection_id := some req.connection_id
        dock_addr := some req.dock_addr.octets_vec
        claims := some claims
        challenge := none
        challenge_responses := some req.challenge_responses }

/-- The value the wire mapping must associate with a key according to the
claim: the value of the last claim with that key, in list order.  This
definition follows the spec's words, not the code, and is compared with
`btreeInsertAll` in the claims below. -/
def lastClaimValueSpec (claims : List Claim) (k : String) : Option String :=
  (claims.reverse.find? fun c => c.key == k).map Claim.value

instance {ε α : Type _} [DecidableEq ε] [DecidableEq α] : DecidableEq (Except ε α) :=
  fun a b =>
    match a, b with
    | .error e, .error f =>
        if h : e = f then .isTrue (by rw [h]) else .isFalse (fun hh => h (Except.error.inj hh))
    | .error _, .ok _ => .isFalse (fun hh => Except.noConfusion hh)
    | .ok _, .error _ => .isFalse (fun hh => Except.noConfusion hh)
    | .ok x, .ok y =>
        if h : x = y then .isTrue (by rw [h]) else .isFalse (fun hh => h (Except.ok.inj hh))

/-! ## Theorems -/

/-- The five-tuple derivation exactly as the spec words it: L3 type from
whether `source_addr` is IPv4; protocol 1/58 for ICMP on IPv4/IPv6 with the
ports carrying `(icmp_type, icmp_code)`; protocol 6/17 and pass-through
ports for TCP/UDP.  Written from the spec, to be compared against
`Visa.get_five_tuple`. -/
def fiveTupleSpec (v : Visa) : VsapiFiveTuple :=
  { source_addr := v.source_addr
    dest_addr := v.dest_addr
    l3_type := if v.source_addr.is_ipv4 then .Ipv4 else .Ipv6
    l4_protocol :=
      match v.dock_pep with
      | .ICMP _ => if v.source_addr.is_ipv4 then 1 else 58
      | .TCP _ => 6
      | .UDP _ => 17
    source_port :=
      match v.dock_pep with
      | .ICMP p => p.icmp_type
      | .TCP p => p.source_port
      | .UDP p => p.source_port
    dest_port :=
      match v.dock_pep with
      | .ICMP p => p.icmp_code
      | .TCP p => p.dest_port
      | .UDP p => p.dest_port }

/-- C2: `get_five_tuple` reports protocol 58 for ICMP with an IPv6 source
and 1 with an IPv4 source, with the ports carrying `(icmp_type,
icmp_code)`; TCP/UDP pass 6/17 and their ports through; the L3 type is
inferred from the source address variant. -/
theorem get_five_tuple_matches_spec (v : Visa) : v.get_five_tuple = fiveTupleSpec v := by
  cases hsa : v.source_addr <;> cases hdp : v.dock_pep <;>
    simp [Visa.get_five_tuple, fiveTupleSpec, IpAddr.is_ipv4, hsa, hdp,
      vsapi_ip_number.ICMP, vsapi_ip_number.IPV6_ICMP, vsapi_ip_number.TCP,
      vsapi_ip_number.UDP]

/-- C4: a `Deny` branch classifies to `Ok(VisaResponse::Deny)` with the
code mapped through the closed table (each wire code to its namesake), an
`Error` branch never yields a `VisaResponse` value and instead fails with
`CodedError` of the mapped code. -/
theorem visa_response_deny_ok_error_coded :
    (∀ c : V1VisaDenyCode,
      VisaResponse.try_from_wire (.deny c) = .ok (.Deny ⟨DenyCode.from_v1 c, none⟩))
    ∧ (∀ e : WireError,
      VisaResponse.try_from_wire (.error e) =
        .error (.CodedError (ErrorCode.from_v1 e.code)))
    ∧ (∀ (e : WireError) (r : VisaResponse), VisaResponse.try_from_wire (.error e) ≠ .ok r)
    ∧ (DenyCode.from_v1 .NoReason = .NoReason ∧ DenyCode.from_v1 .NoMatch = .NoMatch
      ∧ DenyCode.from_v1 .Denied = .Denied
      ∧ DenyCode.from_v1 .SourceNotFound = .SourceNotFound
      ∧ DenyCode.from_v1 .DestNotFound = .DestNotFound
      ∧ DenyCode.from_v1 .SourceAuthError = .SourceAuthError
      ∧ DenyCode.from_v1 .DestAuthError = .DestAuthError
      ∧ DenyCode.from_v1 .QuotaExceeded = .QuotaExceeded) := by
  refine ⟨fun c => rfl, fun e => rfl, fun e r h => ?_, by decide⟩
  simp [VisaResponse.try_from_wire] at h

/-- Witness for C4 at concrete deny and error branches. -/
theorem visa_response_deny_ok_error_coded_witness :
    VisaResponse.try_from_wire (.deny .NoMatch) = .ok (.Deny ⟨.NoMatch, none⟩)
    ∧ VisaResponse.try_from_wire (.error ⟨.NotFound, "boom", 0⟩) =
        .error (.CodedError .NotFound) :=
  ⟨visa_response_deny_ok_error_coded.1 .NoMatch,
    visa_response_deny_ok_error_coded.2.1 ⟨.NotFound, "boom", 0⟩⟩

/-- C7 counterexample: at the UNIX epoch itself (and any later instant)
the default services list already reports expired, contradicting the
claim that `AuthServicesList::default()` is not expired. -/
theorem default_services_list_expired_at_epoch :
    ¬ (AuthServicesList.is_expired AuthServicesList.default 0 = false) := by
  decide

/-- C7 (amended): `AuthServicesList::default()` is empty and invalid, but
its sentinel epoch expiration makes `is_expired` report `true` at every
time at or after the UNIX epoch (the comparison is inclusive). -/
theorem default_services_list_empty_expired_invalid (now : Int) (h : 0 ≤ now) :
    AuthServicesList.default.is_empty = true
    ∧ AuthServicesList.default.is_expired now = true
    ∧ AuthServicesList.default.is_valid now = false := by
  refine ⟨rfl, ?_, ?_⟩ <;>
    simp [AuthServicesList.default, AuthServicesList.is_expired,
      AuthServicesList.is_valid, AuthServicesList.is_empty, h]

/-- Witness for the amended C7 at `now = 5`. -/
theorem default_services_list_empty_expired_invalid_witness :
    (0 : Int) ≤ 5
    ∧ (AuthServicesList.default.is_empty = true
      ∧ AuthServicesList.default.is_expired 5 = true
      ∧ AuthServicesList.default.is_valid 5 = false) :=
  ⟨by decide, default_services_list_empty_expired_invalid 5 (by decide)⟩

/-- C10: storing `visa_expiration_timestamp_to_system_time t` in `expires`
makes `get_expiration_timestamp` return `t` exactly for every `u64`
millisecond count, and a pre-epoch `expires` yields 0 instead of failing. -/
theorem expiration_timestamp_roundtrip :
    (∀ t : Nat, t < 2 ^ 64 → ∀ v : Visa,
      v.expires = visa_expiration_timestamp_to_system_time t →
      v.get_expiration_timestamp = t)
    ∧ (∀ v : Visa, v.expires < 0 → v.get_expiration_timestamp = 0) := by
  constructor
  · intro t ht v hv
    have hcast : (t : Int) * 1000000 = ((t * 1000000 : Nat) : Int) := by push_cast; ring
    have hnn : (0 : Int) ≤ v.expires := by
      rw [hv, visa_expiration_timestamp_to_system_time]
      positivity
    rw [Visa.get_expiration_timestamp, if_pos hnn, hv,
      visa_expiration_timestamp_to_system_time, hcast, Int.toNat_natCast,
      Nat.mul_div_cancel t (by norm_num : 0 < 1000000), Nat.mod_eq_of_lt ht]
  · intro v hv
    rw [Visa.get_expiration_timestamp, if_neg (by omega)]

/-- Concrete visa used by witnesses: a TCP visa expiring 1234 ms after the
epoch. -/
def exTcpVisa : Visa :=
  { issuer_id := 7
    config := 0
    expires := visa_expiration_timestamp_to_system_time 1234
    source_addr := .v4 [10, 0, 0, 1]
    dest_addr := .v4 [10, 0, 0, 2]
    dock_pep := .TCP ⟨443, 8080, .Client⟩
    session_key := ⟨.ZprKF01, [1], [2]⟩
    cons := none }

/-- Witness for C10 at `t = 1234` and at a pre-epoch `expires`. -/
theorem expiration_timestamp_roundtrip_witness :
    (1234 < 2 ^ 64 ∧ exTcpVisa.get_expiration_timestamp = 1234)
    ∧ (({ exTcpVisa with expires := -3 } : Visa).expires < 0
      ∧ ({ exTcpVisa with expires := -3 } : Visa).get_expiration_timestamp = 0) :=
  ⟨⟨by decide, expiration_timestamp_roundtrip.1 1234 (by decide) exTcpVisa rfl⟩,
    ⟨by decide, expiration_timestamp_roundtrip.2 _ (by decide)⟩⟩

/-- An ICMP echo-request visa (type 8, code 0). -/
def exIcmpVisa : Visa :=
  { issuer_id := 7
    config := 0
    expires := visa_expiration_timestamp_to_system_time 1234
    source_addr := .v4 [10, 0, 0, 1]
    dest_addr := .v4 [10, 0, 0, 2]
    dock_pep := .ICMP ⟨8, 0⟩
    session_key := ⟨.ZprKF01, [1], [2]⟩
    cons := none }

/-- C1 fails on the code: the writer packs `icmp_type` into the high byte
of the wire `icmpTypeCode` but the decoder keeps only the low byte (and
zeroes `icmp_code`), so encoding and decoding `exIcmpVisa` yields a visa
whose five-tuple (source_port 0, the lost ICMP type) differs from the
five-tuple derived directly (source_port 8). -/
theorem icmp_visa_roundtrip_loses_five_tuple :
    (Visa.try_from_wire (Visa.write_to exIcmpVisa)).map Visa.get_five_tuple
      ≠ .ok exIcmpVisa.get_five_tuple := by
  decide

/-- In-bounds `getD` commutes with `map`. -/
lemma getD_map_of_lt {α β : Type _} (f : α → β) (l : List α) (j : Nat)
    (h : j < l.length) (d : α) (dB : β) :
    (l.map f).getD j dB = f (l.getD j d) := by
  induction l generalizing j with
  | nil => simp at h
  | cons a t ih =>
      cases j with
      | zero => simp
      | succ n =>
          simp only [List.map_cons, List.getD_cons_succ]
          exact ih n (by simpa using h)

/-- The default attribute used to state in-bounds list indexing. -/
def dAttr : Attribute := ⟨.Unspecified, "", none, .SingleValued, false⟩

/-- The default attribute expression used to state in-bounds indexing. -/
def dExpr : AttrExpr := ⟨"", .Has, []⟩

/-- C5: `write_attributes` emits `Has` for the `j`-th attribute exactly
when its zpl value list is empty, or its first value is the empty string,
or the attribute is multi-valued; in every other case it emits `Eq`; in
particular a multi-valued attribute always gets `Has`. -/
theorem write_attributes_op_selection (attrs : List Attribute) (j : Nat)
    (h : j < attrs.length) :
    (((write_attributes attrs).getD j dExpr).op = .Has ↔
      ((attrs.getD j dAttr).zpl_values.isEmpty
        || ((attrs.getD j dAttr).zpl_values.headD "").isEmpty
        || (attrs.getD j dAttr).is_multi_valued) = true)
    ∧ ((attrs.getD j dAttr).is_multi_valued = true →
        ((write_attributes attrs).getD j dExpr).op = .Has)
    ∧ (((attrs.getD j dAttr).zpl_values.isEmpty
        || ((attrs.getD j dAttr).zpl_values.headD "").isEmpty
        || (attrs.getD j dAttr).is_multi_valued) = false →
        ((write_attributes attrs).getD j dExpr).op = .Eq) := by
  have hmap := getD_map_of_lt
    (f := fun attr : Attribute =>
      ({ key := attr.zpl_key
         op :=
           if attr.zpl_values.isEmpty || (attr.zpl_values.headD "").isEmpty
              || attr.is_multi_valued then
             AttrOp.Has
           else
             AttrOp.Eq
         value := attr.zpl_values } : AttrExpr))
    attrs j h dAttr dExpr
  rw [write_attributes, hmap]
  cases hcb : ((attrs.getD j dAttr).zpl_values.isEmpty
      || ((attrs.getD j dAttr).zpl_values.headD "").isEmpty
      || (attrs.getD j dAttr).is_multi_valued) with
  | true =>
      exact ⟨by simp, fun _ => by simp, fun hff => Bool.noConfusion hff⟩
  | false =>
      have h3 := hcb
      simp only [Bool.or_eq_false_iff] at h3
      refine ⟨by simp, fun hmv => ?_, fun _ => by simp⟩
      rw [h3.2] at hmv
      exact Bool.noConfusion hmv

/-- A multi-valued attribute with two non-empty values. -/
def exMultiAttr : Attribute :=
  { domain := .User
    name := "role"
    values := some ["y", "x"]
    attr_type := .MultiValued
    optional := false }

/-- Witness for C5: the multi-valued attribute `exMultiAttr` with
non-empty values is emitted with operator `Has`. -/
theorem write_attributes_op_selection_witness :
    0 < [exMultiAttr].length
    ∧ ((write_attributes [exMultiAttr]).getD 0 dExpr).op = .Has :=
  ⟨by decide,
    (write_attributes_op_selection [exMultiAttr] 0 (by decide)).2.1 (by decide)⟩

/-- C6: a successful tuple-builder build with more than one supplied value
is multi-valued regardless of an explicit `single()` (the builder's kind is
never `Tag`, which the hypothesis records); with at most one value and no
explicit `multi()` the result is single-valued. -/
theorem tuple_builder_multi_inference (b : TupleAttrBuilder) (a : Attribute)
    (hnt : b.attr_type ≠ AttrT.Tag) (h : b.build = .ok a) :
    (∀ vs, b.values = some vs → 1 < vs.length → a.is_multi_valued = true)
    ∧ (b.attr_type = AttrT.SingleValued →
        (∀ vs, b.values = some vs → vs.length ≤ 1) → a.is_single_valued = true) := by
  rw [TupleAttrBuilder.build] at h
  cases hres : resolve_domain b.raw_name b.domain_fb with
  | error e => rw [hres] at h; cases h
  | ok pair =>
      rw [hres] at h
      cases h
      constructor
      · intro vs hvs hlen
        cases hty : b.attr_type with
        | Tag => exact absurd hty hnt
        | MultiValued => simp [Attribute.is_multi_valued, hvs, hty]
        | SingleValued => simp [Attribute.is_multi_valued, hvs, hty, if_pos hlen]
      · intro hty hshort
        cases hvs : b.values with
        | none => simp [Attribute.is_single_valued, hvs, hty]
        | some vs =>
            have hle : ¬ 1 < vs.length := by
              have := hshort vs hvs
              omega
            simp [Attribute.is_single_valued, hvs, hty, if_neg hle]

/-- Witness for C6: building `user.role` with values `["a", "b"]` after an
explicit `single()` still yields a multi-valued attribute. -/
theorem tuple_builder_multi_inference_witness :
    ((Attribute.tuple "user.role").with_values ["a", "b"]).single.attr_type ≠ AttrT.Tag
    ∧ (((Attribute.tuple "user.role").with_values ["a", "b"]).single.build =
        .ok { domain := .User, name := "role", values := some ["a", "b"],
              attr_type := .MultiValued, optional := false })
    ∧ ({ domain := .User, name := "role", values := some ["a", "b"],
         attr_type := .MultiValued, optional := false } : Attribute).is_multi_valued = true :=
  ⟨by decide, by decide,
    (tuple_builder_multi_inference
      (((Attribute.tuple "user.role").with_values ["a", "b"]).single)
      { domain := .User, name := "role", values := some ["a", "b"],
        attr_type := .MultiValued, optional := false }
      (by decide) (by decide)).1 ["a", "b"] rfl (by decide)⟩

/-- Any dock pep decoded from the capnp union that is ICMP carries code 0. -/
lemma dock_pep_wire_icmp_code_zero (wdp : WireDockPep) (dp : DockPep) (p : IcmpPep)
    (h : DockPep.try_from_wire wdp = .ok dp) (hdp : dp = .ICMP p) : p.icmp_code = 0 := by
  cases wdp <;> (injection h with h'; subst h'; cases hdp <;> rfl)

/-- C9: every visa decoded from either wire format whose dock pep is ICMP
has `icmp_code = 0` — both decode paths construct the ICMP pep with a zero
code. -/
theorem decoded_icmp_code_zero :
    (∀ (t : ThriftVisa) (v : Visa) (p : IcmpPep),
      Visa.try_from_thrift t = .ok v → v.dock_pep = .ICMP p → p.icmp_code = 0)
    ∧ (∀ (w : WireVisa) (v : Visa) (p : IcmpPep),
      Visa.try_from_wire w = .ok v → v.dock_pep = .ICMP p → p.icmp_code = 0) := by
  constructor
  · intro t v p h hdp
    simp only [Visa.try_from_thrift] at h
    repeat' split at h
    all_goals first
      | exact Except.noConfusion h
      | (injection h with h'; subst h'; cases hdp <;> rfl)
      | (injection h with h'; subst h'
         cases hdp
         rename_i hdq
         repeat' split at hdq
         all_goals first
           | exact Except.noConfusion hdq
           | (injection hdq with hdq'; first
               | exact DockPep.noConfusion hdq'
               | (injection hdq' with hdq''; rw [← hdq'']; rfl)))
  · intro w v p h hdp
    simp only [Visa.try_from_wire] at h
    repeat' split at h
    all_goals first
      | exact Except.noConfusion h
      | (injection h with h'; subst h'
         cases hdp
         exact dock_pep_wire_icmp_code_zero _ _ _ (by assumption) rfl)

/-- A legacy ICMP visa with every required field present. -/
def exThriftIcmpVisa : ThriftVisa :=
  { issuer_id := some 1
    configuration := none
    expires := some 2
    source_contact := some [10, 0, 0, 1]
    dest_contact := some [10, 0, 0, 2]
    dock_pep := some .ICMP
    tcpudp_pep_args := none
    icmp_pep_args := some ⟨some 8⟩
    session_key := none
    cons := none }

/-- The visa `exThriftIcmpVisa` decodes to. -/
def exThriftDecoded : Visa :=
  { issuer_id := 1
    config := 0
    expires := 2000000
    source_addr := .v4 [10, 0, 0, 1]
    dest_addr := .v4 [10, 0, 0, 2]
    dock_pep := .ICMP ⟨8, 0⟩
    session_key := KeySet.default
    cons := none }

/-- A current-format ICMP visa message. -/
def exWireIcmpVisa : WireVisa :=
  { issuer_id := 1
    expiration := 2
    source_addr := .v4 [10, 0, 0, 1]
    dest_addr := .v4 [10, 0, 0, 2]
    dock_pep := .icmp 8
    session_key := ⟨.ZprKF01, [], []⟩ }

/-- The visa `exWireIcmpVisa` decodes to. -/
def exWireDecoded : Visa :=
  { issuer_id := 1
    config := 0
    expires := 2000000
    source_addr := .v4 [10, 0, 0, 1]
    dest_addr := .v4 [10, 0, 0, 2]
    dock_pep := .ICMP ⟨8, 0⟩
    session_key := ⟨.ZprKF01, [], []⟩
    cons := none }

/-- Witness for C9 on concrete decodes of both wire formats. -/
theorem decoded_icmp_code_zero_witness :
    ((⟨8, 0⟩ : IcmpPep).icmp_code = 0) ∧ ((⟨8, 0⟩ : IcmpPep).icmp_code = 0) :=
  ⟨decoded_icmp_code_zero.1 exThriftIcmpVisa exThriftDecoded ⟨8, 0⟩ (by decide) (by decide),
    decoded_icmp_code_zero.2 exWireIcmpVisa exWireDecoded ⟨8, 0⟩ (by decide) (by decide)⟩

/-- Every failure of `ip_addr_from_vec` is the named deserialization
error. -/
lemma ip_addr_from_vec_error (v : List Nat) (e : VsapiTypeError)
    (h : ip_addr_from_vec v = .error e) :
    e = .DeserializationError "Bad IP Address format" := by
  rw [ip_addr_from_vec] at h
  split at h
  · exact Except.noConfusion h
  · split at h
    · exact Except.noConfusion h
    · exact (Except.error.inj h).symm

/-- A wire address whose raw data has the length its variant demands. -/
def WireIpAddr.well_formed : WireIpAddr → Prop
  | .v4 d => d.length = 4
  | .v6 d => d.length = 16

/-- Well-formed wire addresses always decode. -/
lemma wire_ip_ok (a : WireIpAddr) (h : a.well_formed) :
    ∃ x, IpAddr.try_from_wire a = .ok x := by
  cases a with
  | v4 d =>
      refine ⟨.v4 d, ?_⟩
      have hd : d.length = 4 := h
      simp [IpAddr.try_from_wire, hd]
  | v6 d =>
      refine ⟨.v6 d, ?_⟩
      have hd : d.length = 16 := h
      simp [IpAddr.try_from_wire, hd]

/-- C3: decoding a visa from either wire format never yields a partial
visa: on the legacy path every outcome is a full `Visa` or a
`Deserialization` error, each absent required field produces the error
naming it ("No issuer id", "No expiration", "No source addr", "No dest
addr", "No Dock Pep"), and on the current path every message with
well-formed addresses decodes to a full `Visa` (capnp fields all carry
defaults, so no field can be absent). -/
theorem visa_decode_total_or_named_error :
    (∀ t : ThriftVisa,
      (∃ v, Visa.try_from_thrift t = .ok v)
      ∨ (∃ m, Visa.try_from_thrift t = .error (.DeserializationError m)))
    ∧ (∀ t : ThriftVisa, t.issuer_id = none →
      Visa.try_from_thrift t = .error (.DeserializationError "No issuer id"))
    ∧ (∀ t : ThriftVisa, t.issuer_id.isSome → t.expires = none →
      Visa.try_from_thrift t = .error (.DeserializationError "No expiration"))
    ∧ (∀ t : ThriftVisa, t.issuer_id.isSome → t.expires.isSome →
      t.source_contact = none →
      Visa.try_from_thrift t = .error (.DeserializationError "No source addr"))
    ∧ (∀ (t : ThriftVisa) (sv : List Nat) (sa : IpAddr),
      t.issuer_id.isSome → t.expires.isSome →
      t.source_contact = some sv → ip_addr_from_vec sv = .ok sa →
      t.dest_contact = none →
      Visa.try_from_thrift t = .error (.DeserializationError "No dest addr"))
    ∧ (∀ (t : ThriftVisa) (sv dv : List Nat) (sa da : IpAddr),
      t.issuer_id.isSome → t.expires.isSome →
      t.source_contact = some sv → ip_addr_from_vec sv = .ok sa →
      t.dest_contact = some dv → ip_addr_from_vec dv = .ok da →
      t.dock_pep = none →
      Visa.try_from_thrift t = .error (.DeserializationError "No Dock Pep"))
    ∧ (∀ w : WireVisa, w.source_addr.well_formed → w.dest_addr.well_formed →
      ∃ v, Visa.try_from_wire w = .ok v) := by
  refine ⟨?_, ?_, ?_, ?_, ?_, ?_, ?_⟩
  · intro t
    obtain ⟨iss, cfg, exp, sc, dc, dpi, tu, ic, sk, cns⟩ := t
    simp only [Visa.try_from_thrift]
    cases iss with
    | none => exact .inr ⟨_, rfl⟩
    | some i =>
    cases exp with
    | none => exact .inr ⟨_, rfl⟩
    | some x =>
    cases sc with
    | none => exact .inr ⟨_, rfl⟩
    | some sv =>
    cases hip : ip_addr_from_vec sv with
    | error e =>
        simp only [hip]
        exact .inr ⟨_, by rw [ip_addr_from_vec_error _ _ hip]⟩
    | ok sa =>
    simp only [hip]
    cases dc with
    | none => exact .inr ⟨_, rfl⟩
    | some dv =>
    cases hip2 : ip_addr_from_vec dv with
    | error e =>
        simp only [hip2]
        exact .inr ⟨_, by rw [ip_addr_from_vec_error _ _ hip2]⟩
    | ok da =>
    simp only [hip2]
    cases dpi with
    | none => exact .inr ⟨_, rfl⟩
    | some idx =>
    cases idx with
    | Unknown => exact .inr ⟨_, rfl⟩
    | UDP =>
        cases tu with
        | none => exact .inr ⟨_, rfl⟩
        | some args =>
            cases sk with
            | none => exact .inl ⟨_, rfl⟩
            | some ks =>
                obtain ⟨fmt, ik, ek⟩ := ks
                cases fmt with
                | none => exact .inr ⟨_, rfl⟩
                | some f => exact .inl ⟨_, rfl⟩
    | TCP =>
        cases tu with
        | none => exact .inr ⟨_, rfl⟩
        | some args =>
            cases sk with
            | none => exact .inl ⟨_, rfl⟩
            | some ks =>
                obtain ⟨fmt, ik, ek⟩ := ks
                cases fmt with
                | none => exact .inr ⟨_, rfl⟩
                | some f => exact .inl ⟨_, rfl⟩
    | ICMP =>
        cases ic with
        | none => exact .inr ⟨_, rfl⟩
        | some args =>
            cases sk with
            | none => exact .inl ⟨_, rfl⟩
            | some ks =>
                obtain ⟨fmt, ik, ek⟩ := ks
                cases fmt with
                | none => exact .inr ⟨_, rfl⟩
                | some f => exact .inl ⟨_, rfl⟩
  · intro t h
    rw [Visa.try_from_thrift, h]
  · intro t h1 h2
    obtain ⟨i, hi⟩ := Option.isSome_iff_exists.mp h1
    rw [Visa.try_from_thrift, hi, h2]
  · intro t h1 h2 h3
    obtain ⟨i, hi⟩ := Option.isSome_iff_exists.mp h1
    obtain ⟨x, hx⟩ := Option.isSome_iff_exists.mp h2
    rw [Visa.try_from_thrift, hi, hx, h3]
  · intro t sv sa h1 h2 h3 h4 h5
    obtain ⟨i, hi⟩ := Option.isSome_iff_exists.mp h1
    obtain ⟨x, hx⟩ := Option.isSome_iff_exists.mp h2
    simp only [Visa.try_from_thrift, hi, hx, h3, h4, h5]
  · intro t sv dv sa da h1 h2 h3 h4 h5 h6 h7
    obtain ⟨i, hi⟩ := Option.isSome_iff_exists.mp h1
    obtain ⟨x, hx⟩ := Option.isSome_iff_exists.mp h2
    simp only [Visa.try_from_thrift, hi, hx, h3, h4, h5, h6, h7]
  · intro w h1 h2
    obtain ⟨iid, exp, sa, da, dpw, skw⟩ := w
    obtain ⟨saddr, hsa⟩ := wire_ip_ok _ h1
    obtain ⟨daddr, hda⟩ := wire_ip_ok _ h2
    simp only [Visa.try_from_wire, hsa, hda]
    obtain ⟨fmt, ik, ek⟩ := skw
    cases fmt
    cases dpw <;> exact ⟨_, rfl⟩

/-- Witness for C3: a legacy visa missing its issuer id fails with the
named error, and a well-formed current-format message decodes fully. -/
theorem visa_decode_total_or_named_error_witness :
    Visa.try_from_thrift { exThriftIcmpVisa with issuer_id := none } =
      .error (.DeserializationError "No issuer id")
    ∧ ∃ v, Visa.try_from_wire exWireIcmpVisa = .ok v :=
  ⟨visa_decode_total_or_named_error.2.1 _ rfl,
    visa_decode_total_or_named_error.2.2.2.2.2.2 exWireIcmpVisa rfl rfl⟩



lemma charListLt_irrefl (l : List Char) : charListLt l l = false := by
  induction l with
  | nil => rfl
  | cons a t ih => simp [charListLt, ih]

lemma charListLt_trans (a b c : List Char) (hab : charListLt a b = true)
    (hbc : charListLt b c = true) : charListLt a c = true := by
  induction a generalizing b c with
  | nil =>
      cases c with
      | nil =>
          cases b with
          | nil => exact hab
          | cons y bs => exact Bool.noConfusion hbc
      | cons z cs => rfl
  | cons x as ih =>
      cases b with
      | nil => exact Bool.noConfusion hab
      | cons y bs =>
          cases c with
          | nil => exact Bool.noConfusion hbc
          | cons z cs =>
              simp only [charListLt] at hab hbc ⊢
              rcases lt_trichotomy x y with hxy | rfl | hxy
              · rcases lt_trichotomy y z with hyz | rfl | hyz
                · rw [if_pos (lt_trans hxy hyz)]
                · rw [if_pos hxy]
                · rw [if_neg (lt_asymm hyz), if_pos hyz] at hbc
                  exact Bool.noConfusion hbc
              · rw [if_neg (lt_irrefl x), if_neg (lt_irrefl x)] at hab
                rcases lt_trichotomy x z with hxz | rfl | hxz
                · rw [if_pos hxz]
                · rw [if_neg (lt_irrefl x), if_neg (lt_irrefl x)] at hbc ⊢
                  exact ih _ _ hab hbc
                · rw [if_neg (lt_asymm hxz), if_pos hxz] at hbc
                  exact Bool.noConfusion hbc
              · rw [if_neg (lt_asymm hxy), if_pos hxy] at hab
                exact Bool.noConfusion hab

lemma charListLt_connex (a b : List Char) (h : charListLt a b = false) (hne : a ≠ b) :
    charListLt b a = true := by
  induction a generalizing b with
  | nil =>
      cases b with
      | nil => exact absurd rfl hne
      | cons y bs => exact Bool.noConfusion h
  | cons x as ih =>
      cases b with
      | nil => rfl
      | cons y bs =>
          simp only [charListLt] at h ⊢
          rcases lt_trichotomy x y with hxy | rfl | hxy
          · rw [if_pos hxy] at h
            exact Bool.noConfusion h
          · rw [if_neg (lt_irrefl x), if_neg (lt_irrefl x)] at h ⊢
            have hne' : as ≠ bs := fun hh => hne (by rw [hh])
            exact ih _ h hne'
          · rw [if_pos hxy]

lemma strLt_irrefl (s : String) : strLt s s = false := charListLt_irrefl s.data

lemma strLt_trans (a b c : String) (hab : strLt a b = true) (hbc : strLt b c = true) :
    strLt a c = true := charListLt_trans a.data b.data c.data hab hbc

lemma strLt_connex (a b : String) (h : strLt a b = false) (hne : a ≠ b) :
    strLt b a = true := by
  refine charListLt_connex a.data b.data h ?_
  intro hd
  exact hne (by cases a; cases b; exact congrArg String.mk hd)



lemma lookup_cons (k' k v : String) (t : List (String × String)) :
    List.lookup k' ((k, v) :: t) = if k' = k then some v else List.lookup k' t := by
  by_cases h : k' = k
  · simp [List.lookup, h]
  · have hb : (k' == k) = false := by simp [h]
    simp [List.lookup, hb, h]

lemma lookup_btreeInsert (m : List (String × String)) (k v k' : String) :
    (btreeInsert k v m).lookup k' = if k' = k then some v else m.lookup k' := by
  induction m with
  | nil =>
      show List.lookup k' [(k, v)] = _
      rw [lookup_cons]
  | cons p t ih =>
      obtain ⟨k0, v0⟩ := p
      by_cases hlt : strLt k k0 = true
      · have hins : btreeInsert k v ((k0, v0) :: t) = (k, v) :: (k0, v0) :: t := by
          simp [btreeInsert, hlt]
        rw [hins, lookup_cons]
      · by_cases heq : k = k0
        · subst heq
          have hins : btreeInsert k v ((k, v0) :: t) = (k, v) :: t := by
            simp [btreeInsert, hlt]
          rw [hins, lookup_cons, lookup_cons]
          by_cases hk : k' = k <;> simp [hk]
        · have hins : btreeInsert k v ((k0, v0) :: t) = (k0, v0) :: btreeInsert k v t := by
            simp [btreeInsert, hlt, heq]
          rw [hins, lookup_cons, ih, lookup_cons]
          by_cases hk0 : k' = k0
          · have hk : k' ≠ k := fun hh => heq (hh.symm.trans hk0)
            have hk0k : k0 ≠ k := fun hh => heq hh.symm
            simp [hk0, hk, hk0k]
          · simp [hk0]


def SortedKeys (m : List (String × String)) : Prop :=
  List.Pairwise (fun p q => strLt p.1 q.1 = true) m

lemma mem_btreeInsert (x : String × String) (k v : String) (m : List (String × String))
    (h : x ∈ btreeInsert k v m) : x = (k, v) ∨ x ∈ m := by
  induction m with
  | nil => simpa [btreeInsert] using h
  | cons p t ih =>
      obtain ⟨k0, v0⟩ := p
      by_cases hlt : strLt k k0 = true
      · simp only [btreeInsert, hlt, if_true] at h
        rcases List.mem_cons.mp h with h1 | h1
        · exact .inl h1
        · exact .inr h1
      · by_cases heq : k = k0
        · subst heq
          simp only [btreeInsert, hlt, if_false, if_pos rfl] at h
          rcases List.mem_cons.mp h with h1 | h1
          · exact .inl h1
          · exact .inr (List.mem_cons_of_mem _ h1)
        · simp only [btreeInsert, hlt, if_false, if_neg heq] at h
          rcases List.mem_cons.mp h with h1 | h1
          · exact .inr (by simp [h1])
          · rcases ih h1 with h2 | h2
            · exact .inl h2
            · exact .inr (List.mem_cons_of_mem _ h2)

lemma sorted_btreeInsert (m : List (String × String)) (k v : String)
    (h : SortedKeys m) : SortedKeys (btreeInsert k v m) := by
  induction m with
  | nil => simp [btreeInsert, SortedKeys]
  | cons p t ih =>
      obtain ⟨k0, v0⟩ := p
      rw [SortedKeys, List.pairwise_cons] at h
      by_cases hlt : strLt k k0 = true
      · have hins : btreeInsert k v ((k0, v0) :: t) = (k, v) :: (k0, v0) :: t := by
          simp [btreeInsert, hlt]
        rw [hins, SortedKeys, List.pairwise_cons]
        refine ⟨?_, List.pairwise_cons.mpr h⟩
        intro q hq
        rcases List.mem_cons.mp hq with rfl | hq'
        · exact hlt
        · exact strLt_trans _ _ _ hlt (h.1 q hq')
      · by_cases heq : k = k0
        · subst heq
          have hins : btreeInsert k v ((k, v0) :: t) = (k, v) :: t := by
            simp [btreeInsert, hlt]
          rw [hins, SortedKeys, List.pairwise_cons]
          exact ⟨h.1, h.2⟩
        · have hins : btreeInsert k v ((k0, v0) :: t) = (k0, v0) :: btreeInsert k v t := by
            simp [btreeInsert, hlt, heq]
          rw [hins, SortedKeys, List.pairwise_cons]
          refine ⟨?_, ih h.2⟩
          intro q hq
          rcases mem_btreeInsert q k v t hq with rfl | hq'
          · have hlt' : strLt k k0 = false := by
              revert hlt
              cases strLt k k0 <;> simp
            exact strLt_connex _ _ hlt' heq
          · exact h.1 q hq'

lemma sortedKeys_nodup (m : List (String × String)) (h : SortedKeys m) :
    (m.map Prod.fst).Nodup := by
  rw [List.Nodup, List.pairwise_map]
  refine h.imp ?_
  intro p q hpq hfst
  rw [hfst, strLt_irrefl] at hpq
  exact Bool.noConfusion hpq

lemma sorted_btreeInsertAll_aux (claims : List Claim) (m : List (String × String))
    (h : SortedKeys m) :
    SortedKeys (claims.foldl (fun m c => btreeInsert c.key c.value m) m) := by
  induction claims generalizing m with
  | nil => exact h
  | cons c rest ih => exact ih _ (sorted_btreeInsert _ _ _ h)

lemma find?_append_some {α : Type _} (p : α → Bool) (l l' : List α) (x : α)
    (h : l.find? p = some x) : (l ++ l').find? p = some x := by
  induction l with
  | nil => simp [List.find?] at h
  | cons a t ih =>
      cases hp : p a with
      | true => simp_all [List.find?_cons_of_pos]
      | false =>
          rw [List.find?_cons_of_neg _ (by simp [hp])] at h
          rw [List.cons_append, List.find?_cons_of_neg _ (by simp [hp])]
          exact ih h

lemma find?_append_none {α : Type _} (p : α → Bool) (l l' : List α)
    (h : l.find? p = none) : (l ++ l').find? p = l'.find? p := by
  induction l with
  | nil => simp
  | cons a t ih =>
      cases hp : p a with
      | true => rw [List.find?_cons_of_pos _ hp] at h; exact Option.noConfusion h
      | false =>
          rw [List.find?_cons_of_neg _ (by simp [hp])] at h
          rw [List.cons_append, List.find?_cons_of_neg _ (by simp [hp])]
          exact ih h

lemma lookup_btreeInsert_foldl (claims : List Claim) (m : List (String × String)) (k : String) :
    (claims.foldl (fun m c => btreeInsert c.key c.value m) m).lookup k =
      match claims.reverse.find? (fun c => c.key == k) with
      | some c => some c.value
      | none => m.lookup k := by
  induction claims generalizing m with
  | nil => rfl
  | cons c rest ih =>
      rw [List.foldl_cons, ih, List.reverse_cons]
      cases hf : rest.reverse.find? (fun c => c.key == k) with
      | some c' => rw [find?_append_some _ _ _ _ hf]
      | none =>
          rw [find?_append_none _ _ _ hf, lookup_btreeInsert]
          by_cases hk : k = c.key
          · rw [if_pos hk, List.find?_cons_of_pos _ (by simp [hk])]
          · have hk' : ¬ c.key = k := fun hh => hk hh.symm
            rw [if_neg hk, List.find?_cons_of_neg _ (by simp [hk']), List.find?_nil]

/-- C8: serializing a `ConnectRequestV1` never fails, and its wire claims
mapping is key-unique with each key bound to the value of the last claim
with that key in list order (last write wins). -/
theorem connect_request_claims_last_write_wins (req : ConnectRequestV1) :
    ∃ t, req.try_into_thrift = .ok t
      ∧ t.claims = some (btreeInsertAll req.claims)
      ∧ ((btreeInsertAll req.claims).map Prod.fst).Nodup
      ∧ ∀ k, (btreeInsertAll req.claims).lookup k = lastClaimValueSpec req.claims k := by
  refine ⟨_, rfl, rfl, ?_, ?_⟩
  · exact sortedKeys_nodup _
      (sorted_btreeInsertAll_aux req.claims [] (by simp [SortedKeys]))
  · intro k
    rw [btreeInsertAll, lookup_btreeInsert_foldl, lastClaimValueSpec]
    cases hf : req.claims.reverse.find? (fun c => c.key == k) <;> simp

end ZprCommon
